import Mathlib

/-!
Verification development for the PIPEDRIVE-CRUD-DEBT reconciliation engine.

The definitions below are a shallow embedding of the Python sources:
  - `src/config.py`          : pipeline/stage identifiers,
  - `src/business_rules.py`  : the standard reconciliation engine,
  - `src/optimized_business_rules.py` : the optimized engine (rate limiter,
    retry system, batch orchestration, removal rules),
  - `src/file_processor.py` and `src/pipedrive_client.py` : document
    normalization,
  - `utils/backup_sqlite.py` : the audit ledger.

Remote calls are modelled as values of an `ApiCall` type: each engine
function is embedded as a pure function returning the list of mutation
calls it would issue, so "issues zero mutation calls" becomes an equation
on that list.
-/

namespace PipedriveCrud

/-! ### Python string primitives used by the sources -/

/-- Python `s.zfill(n)`: left-pad with `'0'` up to length `n`. -/
def zfill (n : Nat) (s : String) : String :=
  if s.length ≥ n then s
  else String.mk (List.replicate (n - s.length) '0') ++ s

/-- Python `s.lstrip('0')`: drop leading `'0'` characters. -/
def lstripZeros (s : String) : String :=
  String.mk (s.toList.dropWhile (fun c => c = '0'))

/-- Python `s[-n:]`: the last `n` characters of `s` (all of `s` when shorter). -/
def takeLast (n : Nat) (s : String) : String :=
  String.mk (s.toList.drop (s.length - n))

/-- Python `needle in hay` on strings: substring containment. -/
def containsSubstr (hay needle : String) : Bool :=
  decide (needle.toList <:+: hay.toList)

/-- Python `''.join(filter(str.isdigit, document))` with the empty-input
guard of `FileProcessor._clean_document`. -/
def clean_document (document : String) : String :=
  String.mk (document.toList.filter Char.isDigit)

/-- Python `s.strip()`: remove leading and trailing whitespace. -/
def pyStrip (s : String) : String :=
  String.mk
    (((s.toList.dropWhile Char.isWhitespace).reverse.dropWhile
      Char.isWhitespace).reverse)

/-- Python `s.upper()` on the ASCII content the engine handles. -/
def pyUpper (s : String) : String :=
  String.mk (s.toList.map Char.toUpper)

/-- Split a character list at every occurrence of `c` (Python
`s.split(c)` on a one-character separator). -/
def splitOnChar (c : Char) : List Char → List (List Char)
  | [] => [[]]
  | x :: xs =>
    match splitOnChar c xs with
    | [] => [[x]]
    | h :: t => if x = c then [] :: h :: t else (x :: h) :: t

/-- Python `s.split(sep)` for a one-character separator. -/
def pySplit (s : String) (c : Char) : List String :=
  (splitOnChar c s.toList).map String.mk

/-- Parse an unsigned decimal numeral. -/
def digitsToNat (l : List Char) : Option Nat :=
  if l ≠ [] ∧ l.all Char.isDigit then
    some (l.foldl (fun a c => 10 * a + (c.toNat - 48)) 0)
  else none

/-- Python `int(s)` on an already-stripped string: optional sign then
decimal digits; anything else raises (modelled as `none`). -/
def pyToInt (s : String) : Option Int :=
  match s.toList with
  | '-' :: rest => (digitsToNat rest).map (fun n => -(n : Int))
  | '+' :: rest => (digitsToNat rest).map (fun n => (n : Int))
  | l => (digitsToNat l).map (fun n => (n : Int))

/-! ### Constants from `src/config.py` -/

def PIPELINE_BASE_NOVA_SDR_ID : Nat := 14
def PIPELINE_BASE_NOVA_NEGOCIACAO_ID : Nat := 15
def PIPELINE_BASE_NOVA_FORMALIZACAO_ID : Nat := 17
/-- Pipeline JUDICIAL — "não deve ser modificada" (`config.py`). -/
def PIPELINE_JUDICIAL_ID : Nat := 3
def STAGE_NOVAS_COBRANCAS_ID : Nat := 110
def STAGE_INICIAR_COBRANCA_ID : Nat := 115
def STAGE_INICIAR_COBRANCA_ALT_ID : Nat := 208
def STAGE_ENVIAR_MINUTA_BOLETO_ID : Nat := 124
def STAGE_AGUARDANDO_PAGAMENTO_ID : Nat := 173
def STAGE_ACOMPANHAMENTO_ACORDO_ID : Nat := 176
def STAGE_BOLETO_PAGO_ID : Nat := 174

/-! ### Remote deals and mutation calls -/

/-- The fields of a Pipedrive deal that the engine reads. -/
structure Deal where
  id : Nat
  title : String
  status : String
  pipeline_id : Nat
  stage_id : Nat
  deriving Repr, DecidableEq

/-- A mutating call issued through `PipedriveClient`.  `update_deal`
payload entries that are always additionally present (custom-field
refresh, title) are not tracked separately: any `updateDeal` value is a
mutation of the target deal. -/
inductive ApiCall where
  | updatePerson (entityId : Nat)
  | createDeal (pipelineId stageId personId : Nat)
  | updateDeal (dealId : Nat) (status : Option String)
      (pipelineId stageId : Option Nat)
  | markDealAsLost (dealId : Nat) (reason : String)
  deriving Repr, DecidableEq

/-- The deal targeted by a call, when the call mutates an existing deal. -/
def ApiCall.dealTarget : ApiCall → Option Nat
  | .updateDeal dealId _ _ _ => some dealId
  | .markDealAsLost dealId _ => some dealId
  | _ => none

/-- Does the call set the deal `status` to `open` (a reopen)? -/
def ApiCall.isReopen : ApiCall → Bool
  | .updateDeal _ (some st) _ _ => st = "open"
  | _ => false

/-! ### Removal pass (`_apply_removal_rules`, `business_rules.py` 847-907,
and `_apply_removal_rules_optimized`, `optimized_business_rules.py`
751-806).  Each embedding returns the mutation calls issued for the deal
together with the statistics bucket the deal is recorded under. -/

/-- The four exception stages listed in both removal-rule functions. -/
def etapas_excecao : List Nat :=
  [STAGE_ENVIAR_MINUTA_BOLETO_ID,
   STAGE_AGUARDANDO_PAGAMENTO_ID,
   STAGE_ACOMPANHAMENTO_ACORDO_ID,
   STAGE_BOLETO_PAGO_ID]

/-- Outcome of applying the removal rules to a single deal. -/
structure RemovalOutcome where
  calls : List ApiCall
  stat : String
  deriving Repr, DecidableEq

/-- `BusinessRulesProcessor._reopen_deal_to_iniciar_cobranca`
(`business_rules.py` 952-999): reopen a lost deal to the
"Iniciar Cobrança" stage of the target pipeline (falling back to
BASE NOVA - SDR for unmanaged pipelines). -/
def reopen_deal_to_iniciar_cobranca (dealId targetPipelineId : Nat) :
    RemovalOutcome :=
  let target :=
    if targetPipelineId = PIPELINE_BASE_NOVA_SDR_ID then
      (PIPELINE_BASE_NOVA_SDR_ID, STAGE_INICIAR_COBRANCA_ID)
    else if targetPipelineId = PIPELINE_BASE_NOVA_NEGOCIACAO_ID then
      (PIPELINE_BASE_NOVA_NEGOCIACAO_ID, STAGE_INICIAR_COBRANCA_ID)
    else
      (PIPELINE_BASE_NOVA_SDR_ID, STAGE_INICIAR_COBRANCA_ID)
  { calls := [.updateDeal dealId (some "open") (some target.1) (some target.2)],
    stat := "negocios_reabertos_cobranca" }

/-- `BusinessRulesProcessor._apply_removal_rules` (`business_rules.py`
847-907), for a deal whose document is absent from the current extract. -/
def apply_removal_rules (deal : Deal) : RemovalOutcome :=
  if deal.pipeline_id = PIPELINE_JUDICIAL_ID then
    { calls := [], stat := "negocios_judiciais_preservados" }
  else if deal.pipeline_id = PIPELINE_BASE_NOVA_FORMALIZACAO_ID then
    { calls := [], stat := "negocios_mantidos_formalizacao" }
  else if deal.pipeline_id = PIPELINE_BASE_NOVA_SDR_ID ∨
          deal.pipeline_id = PIPELINE_BASE_NOVA_NEGOCIACAO_ID then
    if deal.stage_id ∈ etapas_excecao then
      { calls := [], stat := "mantido_etapa_excecao" }
    else if deal.status = "lost" then
      reopen_deal_to_iniciar_cobranca deal.id deal.pipeline_id
    else
      { calls := [.markDealAsLost deal.id "Não consta mais no TXT do banco"],
        stat := "negocios_marcados_perdidos" }
  else
    if deal.status = "lost" then
      reopen_deal_to_iniciar_cobranca deal.id PIPELINE_BASE_NOVA_SDR_ID
    else
      { calls := [.markDealAsLost deal.id "Não consta mais no TXT do banco"],
        stat := "negocios_marcados_perdidos" }

/-- `OptimizedBusinessRulesProcessor._apply_removal_rules_optimized`
(`optimized_business_rules.py` 751-806).  Unlike the standard version it
has no `status == 'lost'` reopen branch: managed-pipeline deals outside
the exception stages are always marked lost. -/
def apply_removal_rules_optimized (deal : Deal) : RemovalOutcome :=
  if deal.pipeline_id = PIPELINE_JUDICIAL_ID then
    { calls := [], stat := "negocios_judiciais_preservados" }
  else if deal.pipeline_id = PIPELINE_BASE_NOVA_FORMALIZACAO_ID then
    { calls := [], stat := "negocios_mantidos_formalizacao" }
  else if deal.pipeline_id = PIPELINE_BASE_NOVA_SDR_ID ∨
          deal.pipeline_id = PIPELINE_BASE_NOVA_NEGOCIACAO_ID then
    if deal.stage_id ∈ etapas_excecao then
      { calls := [], stat := "mantido_etapa_excecao" }
    else
      { calls := [.markDealAsLost deal.id "Não consta mais no TXT do banco"],
        stat := "negocios_marcados_perdidos" }
  else
    { calls := [.markDealAsLost deal.id "Não consta mais no TXT do banco"],
      stat := "negocios_marcados_perdidos" }

/-! ### Removal pass deal fetch (`_get_all_deals_in_base_nova_pipelines`,
`business_rules.py` 909-921, and its optimized counterpart,
`optimized_business_rules.py` 714-749).  The network fetch per pipeline is
abstracted as an environment mapping a pipeline id to its deals; each
embedding records exactly the pipeline ids its loop iterates. -/

/-- Pipeline ids iterated by the standard fetch: the source loop body
lists only the SDR and Negociação ids (the Formalização id is absent). -/
def base_nova_fetch_pipelines : List Nat :=
  [PIPELINE_BASE_NOVA_SDR_ID,
   PIPELINE_BASE_NOVA_NEGOCIACAO_ID]

/-- Pipeline ids iterated by the optimized fetch. -/
def base_nova_fetch_pipelines_optimized : List Nat :=
  [PIPELINE_BASE_NOVA_SDR_ID,
   PIPELINE_BASE_NOVA_NEGOCIACAO_ID,
   PIPELINE_BASE_NOVA_FORMALIZACAO_ID]

/-- `_get_all_deals_in_base_nova_pipelines`: concatenates the deals of the
pipelines in `base_nova_fetch_pipelines`, in order. -/
def get_all_deals_in_base_nova_pipelines (env : Nat → List Deal) : List Deal :=
  (base_nova_fetch_pipelines.map env).flatten

/-- `_get_all_deals_in_base_nova_pipelines_optimized`: same, over all
three BASE NOVA pipelines. -/
def get_all_deals_in_base_nova_pipelines_optimized (env : Nat → List Deal) :
    List Deal :=
  (base_nova_fetch_pipelines_optimized.map env).flatten

/-! ### Standard per-extract pass
(`BusinessRulesProcessor._handle_existing_person_from_txt`,
`business_rules.py` 480-544). -/

/-- The `is_related` test of the classification loop:
`any(variant in titulo for variant in document_variants if variant)`. -/
def is_related (variants : List String) (deal : Deal) : Bool :=
  variants.any (fun v => v ≠ "" && containsSubstr deal.title v)

/-- The three buckets built by the classification loop. -/
structure ClassifiedDeals where
  judiciais : List Deal
  baseNova : List Deal
  outras : List Deal
  deriving Repr, DecidableEq

/-- The classification loop of `_handle_existing_person_from_txt`
(lines 510-526): related deals are split by pipeline into JUDICIAL,
BASE NOVA (SDR/Negociação/Formalização) and other pipelines; unrelated
deals are dropped. -/
def classify_deals (variants : List String) : List Deal → ClassifiedDeals
  | [] => { judiciais := [], baseNova := [], outras := [] }
  | d :: rest =>
    let c := classify_deals variants rest
    if is_related variants d then
      if d.pipeline_id = PIPELINE_JUDICIAL_ID then
        { c with judiciais := d :: c.judiciais }
      else if d.pipeline_id = PIPELINE_BASE_NOVA_SDR_ID ∨
              d.pipeline_id = PIPELINE_BASE_NOVA_NEGOCIACAO_ID ∨
              d.pipeline_id = PIPELINE_BASE_NOVA_FORMALIZACAO_ID then
        { c with baseNova := d :: c.baseNova }
      else
        { c with outras := d :: c.outras }
    else c

/-- `_move_deals_to_base_nova_sdr` (lines 737-767): each deal of another
base is reopened and moved to BASE NOVA SDR, stage NOVAS COBRANÇAS. -/
def move_deal_to_base_nova_sdr_call (d : Deal) : ApiCall :=
  .updateDeal d.id (some "open") (some PIPELINE_BASE_NOVA_SDR_ID)
    (some STAGE_NOVAS_COBRANCAS_ID)

/-- `_apply_rules_to_base_nova_deals` (lines 769-815): refresh fields;
`won`/`lost` deals additionally get `status := open`, `open` deals keep
their status and stage. -/
def apply_rules_to_base_nova_deal_call (d : Deal) : ApiCall :=
  .updateDeal d.id
    (if d.status = "won" ∨ d.status = "lost" then some "open" else none)
    none none

/-- Mutation calls issued by `_handle_existing_person_from_txt` for one
debtor whose person already exists remotely.  `newDealId` stands for the
id the remote service would assign in
`_create_new_deal_for_existing_entity` (lines 1179-1222), whose freshly
created deal is immediately updated with the custom-field payload. -/
def handle_existing_person_from_txt (variants : List String)
    (negocios : List Deal) (entityId newDealId : Nat) : List ApiCall :=
  let c := classify_deals variants negocios
  [.updatePerson entityId]
    ++ c.outras.map move_deal_to_base_nova_sdr_call
    ++ c.baseNova.map apply_rules_to_base_nova_deal_call
    ++ (if c.baseNova.isEmpty && c.outras.isEmpty then
          [.createDeal PIPELINE_BASE_NOVA_SDR_ID STAGE_NOVAS_COBRANCAS_ID
             entityId,
           .updateDeal newDealId none none none]
        else [])

/-! ### Optimized per-extract pass
(`OptimizedBusinessRulesProcessor._handle_existing_person_optimized`,
`optimized_business_rules.py` 503-574). -/

/-- `_reopen_deal_to_novas_cobrancas_optimized` (lines 808-855): reopen to
BASE NOVA - SDR, stage NOVAS COBRANÇAS. -/
def reopen_deal_to_novas_cobrancas_optimized_call (dealId : Nat) : ApiCall :=
  .updateDeal dealId (some "open") (some PIPELINE_BASE_NOVA_SDR_ID)
    (some STAGE_NOVAS_COBRANCAS_ID)

/-- Mutation calls issued by `_handle_existing_person_optimized`: every
deal of the person with `status == 'lost'` is reopened to NOVAS
COBRANÇAS; other deals are merely recorded in the statistics; no
pipeline is inspected. -/
def handle_existing_person_optimized (negocios : List Deal) : List ApiCall :=
  negocios.flatMap (fun n =>
    if n.status = "lost" then
      [reopen_deal_to_novas_cobrancas_optimized_call n.id]
    else [])

/-! ### Document normalization
(`FileProcessor._normalize_document_by_type`, `file_processor.py`
376-410, and `PipedriveClient._normalize_document_by_type`,
`pipedrive_client.py` 1384-1444). -/

/-- `FileProcessor._normalize_document_by_type`: strip non-digits, then
keep the last 11 (PF) / 14 (PJ) digits when longer, left-zero-pad when
shorter; empty cleaned input and unknown person types pass through. -/
def normalize_document_by_type (document person_type : String) : String :=
  let clean_doc := clean_document document
  if clean_doc = "" then ""
  else
    if person_type = "PF" then
      if clean_doc.length ≥ 11 then takeLast 11 clean_doc
      else zfill 11 clean_doc
    else if person_type = "PJ" then
      if clean_doc.length ≥ 14 then takeLast 14 clean_doc
      else zfill 14 clean_doc
    else clean_doc

/-- The branch of `PipedriveClient._normalize_document_by_type` for a
known person type: the canonical form followed by its zero-stripped
variant, before deduplication. -/
def client_variants_for_target (clean_doc : String) (target : Nat) :
    List String :=
  if clean_doc.length ≥ target then
    let correct_doc := takeLast target clean_doc
    let stripped_doc := lstripZeros correct_doc
    correct_doc ::
      (if stripped_doc ≠ "" ∧ stripped_doc ≠ correct_doc then [stripped_doc]
       else [])
  else
    let padded_doc := zfill target clean_doc
    let stripped_doc := lstripZeros clean_doc
    padded_doc :: (if stripped_doc ≠ "" then [stripped_doc] else [])

/-- The final loop of both branches: keep non-empty variants, first
occurrence only, preserving order. -/
def dedup_variants (variants : List String) : List String :=
  variants.foldl
    (fun acc v => if v ≠ "" ∧ v ∉ acc then acc ++ [v] else acc) []

/-- `PipedriveClient._normalize_document_by_type`: the ranked list of
document variants to try against the remote search.  For unknown person
types the PF and PJ variant lists are concatenated and deduplicated
(`list(dict.fromkeys(...))`). -/
def client_normalize_document_by_type (document person_type : String) :
    List String :=
  let clean_doc := clean_document document
  if clean_doc = "" then []
  else
    if person_type = "PF" then
      dedup_variants (client_variants_for_target clean_doc 11)
    else if person_type = "PJ" then
      dedup_variants (client_variants_for_target clean_doc 14)
    else
      dedup_variants (client_variants_for_target clean_doc 11 ++
        client_variants_for_target clean_doc 14)

/-! ### Custom-field value formatting
(`BusinessRulesProcessor._format_custom_field_value`,
`business_rules.py` 1224-1386). -/

/-- A business value handed to the formatter.  The callers pass strings,
Python `None` and numbers; the numbers that reach the formatter are
integral (`tag_atraso`, day counts, integer-cent totals), so numeric
values are carried as `Int`. -/
inductive FieldValue where
  | none
  | str (s : String)
  | int (n : Int)
  deriving Repr, DecidableEq

/-- A formatted value: `omitted` is Python `None` ("omit the field"),
`money` is the `{"value": v, "currency": "BRL"}` object and `tags` the
multi-select id list. -/
inductive FormattedValue where
  | omitted
  | str (s : String)
  | int (n : Int)
  | money (v : Int)
  | tags (l : List Int)
  deriving Repr, DecidableEq

def date_field_names : List String :=
  ["VENCIMENTO_MAIS_ANTIGO", "DATA_PREJUIZO_MAIS_ANTIGO",
   "DATA_TERCEIRIZACAO", "DATA_PREVISTA_HONRA"]

def money_field_names : List String :=
  ["VALOR_TOTAL_DA_DIVIDA", "VALOR_TOTAL_VENCIDO",
   "VALOR_TOTAL_COM_JUROS", "VALOR_MINIMO"]

def int_field_names : List String :=
  ["DIAS_DE_ATRASO", "ESPE_PARCELAMENTO"]

/-- Python `str.isdigit` on ASCII content. -/
def pyIsDigit (s : String) : Bool :=
  s ≠ "" && s.toList.all Char.isDigit

/-- The `DD/MM/YYYY → YYYY-MM-DD` conversion of the date-field branch;
the `try`/`except` around the unpacking assignment maps a split that does
not yield exactly three parts to `None`. -/
def format_date_value (s : String) : FormattedValue :=
  if s.toList.contains '/' then
    match pySplit s '/' with
    | [day, month, year] =>
      .str (year ++ "-" ++ zfill 2 month ++ "-" ++ zfill 2 day)
    | _ => .omitted
  else .str s

/-- The zero-stripping applied to contract/operation fields:
`value.lstrip('0') if value.lstrip('0') else '0'`. -/
def strip_leading_zeros_or_zero (s : String) : String :=
  if lstripZeros s ≠ "" then lstripZeros s else "0"

/-- The body of the formatter after the initial `None`/empty guard, in
source order. -/
def format_custom_field_body (field_name : String) (value : FieldValue) :
    FormattedValue :=
  if field_name ∈ date_field_names then
    match value with
    | .str s => if pyStrip s ≠ "" then format_date_value s else .omitted
    | _ => .omitted
  else if field_name ∈ money_field_names then
    match value with
    | .int n => if n > 0 then .money n else .omitted
    | _ => .omitted
  else if field_name = "ID_CPF_CNPJ" then
    match value with
    | .str s =>
      if pyStrip s ≠ "" then
        let clean_value := clean_document s
        if clean_value.length = 11 then .str clean_value
        else if clean_value.length = 14 then .str clean_value
        else if clean_value.length > 14 then .str (takeLast 11 clean_value)
        else if clean_value.length ≤ 11 then .str (zfill 11 clean_value)
        else .str (zfill 14 clean_value)
      else .omitted
    | .int n => .str (toString n)
    | _ => .omitted
  else if field_name ∈ int_field_names then
    match value with
    | .str s =>
      if pyStrip s ≠ "" then
        match pyToInt (pyStrip s) with
        | some n => .int n
        | none => .omitted
      else .omitted
    | .int n => .int n
    | _ => .omitted
  else if field_name = "TODAS_OPERACOES" ∨ field_name = "TODOS_CONTRATOS" ∨
          field_name = "NUMERO_CONTRATO" ∨
          field_name = "TOTAL_DE_PARCELAS" then
    match value with
    | .str s =>
      if pyStrip s ≠ "" then .str (strip_leading_zeros_or_zero s) else .omitted
    | .int n => .str (toString n)
    | _ => .omitted
  else if field_name = "TAG_ATRASO" then
    match value with
    | .int n =>
      if n = 121 ∨ n = 122 then .tags [n]
      else if n > 0 then
        if n > 90 then .tags [122] else .tags [121]
      else .omitted
    | .str s =>
      if pyStrip s ≠ "" then
        let value_upper := pyUpper s
        if [("> 90" : String), ">90", "PREJU", "ACIMA"].any
            (containsSubstr value_upper) then .tags [122]
        else if [("<90" : String), "INAD", "EVITAR"].any
            (containsSubstr value_upper) then .tags [121]
        else if pyIsDigit s then
          let days := (digitsToNat s.toList).getD 0
          if days > 90 then .tags [122] else .tags [121]
        else .tags [121]
      else .omitted
    | _ => .omitted
  else
    match value with
    | .str s => if pyStrip s ≠ "" then .str (pyStrip s) else .omitted
    | v =>
      if field_name = "CONTRATO_GARANTINORTE" ∨ field_name = "AVALISTAS" then
        match v with
        | .none => .str ""
        | .int n => .str (toString n)
        | .str s => .str (pyStrip s)
      else
        match v with
        | .none => .omitted
        | .int n => .int n
        | .str s => .str s

/-- `_format_custom_field_value`: the initial guard maps `None` and the
empty string to omission for every field; for fields other than
TAG_ATRASO the numeric zero is also mapped to omission. -/
def format_custom_field_value (field_name : String) (value : FieldValue) :
    FormattedValue :=
  if field_name = "TAG_ATRASO" then
    if value = .none ∨ value = .str "" then .omitted
    else format_custom_field_body field_name value
  else
    if value = .none ∨ value = .str "" ∨ value = .int 0 then .omitted
    else format_custom_field_body field_name value

/-! ### Audit ledger (`utils/backup_sqlite.py`). -/

/-- A consolidated debtor record from the TXT extract, with the fields
persisted by `salvar_entidade_devedor` (the same record is also stored
verbatim as the row's `raw_txt_data`). -/
structure Inadimplente where
  cpf_cnpj : String
  tipo_pessoa : String
  nome : String
  valor_total_divida : Int
  valor_total_vencido : Int
  valor_total_com_juros : Int
  dias_atraso_maximo : Int
  cooperado : String
  cooperativa : String
  numero_contrato : String
  todos_contratos : String
  todas_operacoes : String
  vencimento_mais_antigo : String
  tipo_acao_carteira : String
  total_parcelas : String
  tag_atraso : String
  contrato_garantinorte : String
  telefones : List String
  emails : List String
  endereco_completo : String
  data_nascimento : String
  rg : String
  nome_mae : String
  estado_civil : String
  condicao_cpf : String
  deriving Repr, DecidableEq

/-- A row of the `entidades_devedores` table.  `dados` carries the
business columns copied from the TXT record (and the `raw_txt_data`
column, which stores the same record as JSON). -/
structure EntityRow where
  id : Nat
  documento : String
  tipo_pessoa : String
  nome : String
  pipedrive_person_id : Option Nat
  pipedrive_org_id : Option Nat
  pipedrive_deal_id : Option Nat
  dados : Inadimplente
  version : Nat
  status_operacao : String
  pipeline_atual : Option String
  stage_atual : Option String
  deriving Repr, DecidableEq

/-- A row of the `historico_alteracoes` table. -/
structure HistoryRow where
  entidade_id : Nat
  documento : String
  tipo_pessoa : String
  acao : String
  dados_anteriores : Option EntityRow
  dados_novos : Inadimplente
  origem_arquivo : Option String
  deriving Repr, DecidableEq

/-- The ledger store: the entity table, the append-only history table,
and the next `AUTOINCREMENT` row id. -/
structure LedgerState where
  entidades : List EntityRow
  historico : List HistoryRow
  nextId : Nat
  deriving Repr, DecidableEq

/-- The `(documento, tipo_pessoa)` key of the `UNIQUE` constraint. -/
def ledger_key (r : EntityRow) : String × String :=
  (r.documento, r.tipo_pessoa)

/-- The `WHERE documento = ? AND tipo_pessoa = ?` lookup predicate of
`salvar_entidade_devedor`. -/
def entity_matches (inad : Inadimplente) (r : EntityRow) : Bool :=
  r.documento = inad.cpf_cnpj ∧ r.tipo_pessoa = inad.tipo_pessoa

/-- `BackupSQLite.salvar_entidade_devedor` (`backup_sqlite.py` 194-382):
look the entity up by `(documento, tipo_pessoa)`; update in place with
`version = version + 1` when found, insert with the default `version = 1`
otherwise; in both cases append exactly one `historico_alteracoes` row
(capturing the previous row on update).  Returns `false` and leaves the
store untouched when `documento`, `tipo_pessoa` or `nome` is empty. -/
def salvar_entidade_devedor (st : LedgerState) (inad : Inadimplente)
    (person_id org_id deal_id : Option Nat) (status_operacao : String)
    (pipeline_atual stage_atual origem_arquivo : Option String) :
    Bool × LedgerState :=
  if inad.cpf_cnpj = "" ∨ inad.tipo_pessoa = "" ∨ inad.nome = "" then
    (false, st)
  else
    match st.entidades.find? (entity_matches inad) with
    | some row =>
      let updated : EntityRow :=
        { row with
          nome := inad.nome
          pipedrive_person_id := person_id
          pipedrive_org_id := org_id
          pipedrive_deal_id := deal_id
          dados := inad
          version := row.version + 1
          status_operacao := status_operacao
          pipeline_atual := pipeline_atual
          stage_atual := stage_atual }
      (true,
       { st with
         entidades := st.entidades.map (fun r =>
           if r.id = row.id then updated else r)
         historico := st.historico ++
           [{ entidade_id := row.id
              documento := inad.cpf_cnpj
              tipo_pessoa := inad.tipo_pessoa
              acao := "atualizado"
              dados_anteriores := some row
              dados_novos := inad
              origem_arquivo := origem_arquivo }] })
    | none =>
      let newRow : EntityRow :=
        { id := st.nextId
          documento := inad.cpf_cnpj
          tipo_pessoa := inad.tipo_pessoa
          nome := inad.nome
          pipedrive_person_id := person_id
          pipedrive_org_id := org_id
          pipedrive_deal_id := deal_id
          dados := inad
          version := 1
          status_operacao := status_operacao
          pipeline_atual := pipeline_atual
          stage_atual := stage_atual }
      (true,
       { entidades := st.entidades ++ [newRow]
         historico := st.historico ++
           [{ entidade_id := st.nextId
              documento := inad.cpf_cnpj
              tipo_pessoa := inad.tipo_pessoa
              acao := "criado"
              dados_anteriores := none
              dados_novos := inad
              origem_arquivo := origem_arquivo }]
         nextId := st.nextId + 1 })

/-! ### Run-level control flow
(`BusinessRulesProcessor.process_inadimplentes_from_txt`,
`business_rules.py` 51-134, and
`OptimizedBusinessRulesProcessor.process_inadimplentes_optimized`,
`optimized_business_rules.py` 241-328). -/

/-- The run-level effects visible to the caller and the ledger:
the error list of the returned statistics, the terminal status and
message `finalizar_processamento` writes to the `log_processamentos`
row (when one was opened), and whether the entry point re-raises the
exception to its caller. -/
structure RunResult where
  erros : List String
  run_status : Option String
  run_error_msg : Option String
  propagates : Bool
  deriving Repr, DecidableEq

/-- `process_inadimplentes_from_txt`: the whole body sits in one
`try`/`except Exception`.  `fileData` is the outcome of processing the
extract file (step 1, before the run row is opened); `perItemErrors` are
the per-item errors caught inside the loop; `postStart` is the outcome
of the remaining work after the run row is opened (per-extract loop,
removal pass, finalization) — an exception there reaches the outer
handler, which records the message, marks the run row `erro`, and
returns the statistics. -/
def process_inadimplentes_from_txt_run (fileData : Except String Unit)
    (anyData : Bool) (perItemErrors : List String)
    (postStart : Except String Unit) : RunResult :=
  match fileData with
  | .error e =>
    { erros := ["Erro no processamento geral: " ++ e]
      run_status := none
      run_error_msg := none
      propagates := false }
  | .ok _ =>
    if anyData then
      match postStart with
      | .ok _ =>
        { erros := perItemErrors
          run_status := some "concluido"
          run_error_msg := none
          propagates := false }
      | .error e =>
        { erros := perItemErrors ++ ["Erro no processamento geral: " ++ e]
          run_status := some "erro"
          run_error_msg := some ("Erro no processamento geral: " ++ e)
          propagates := false }
    else
      { erros := [], run_status := none, run_error_msg := none
        propagates := false }

/-- `process_inadimplentes_optimized` has the same `try`/`except`
skeleton the standard run has: no branch re-raises, the run row is
marked `erro` only when it was already opened. -/
def process_inadimplentes_optimized_run (fileData : Except String Unit)
    (anyData : Bool) (perItemErrors : List String)
    (postStart : Except String Unit) : RunResult :=
  match fileData with
  | .error e =>
    { erros := ["Erro no processamento geral: " ++ e]
      run_status := none
      run_error_msg := none
      propagates := false }
  | .ok _ =>
    if anyData then
      match postStart with
      | .ok _ =>
        { erros := perItemErrors
          run_status := some "concluido"
          run_error_msg := none
          propagates := false }
      | .error e =>
        { erros := perItemErrors ++ ["Erro no processamento geral: " ++ e]
          run_status := some "erro"
          run_error_msg := some ("Erro no processamento geral: " ++ e)
          propagates := false }
    else
      { erros := [], run_status := none, run_error_msg := none
        propagates := false }

/-! ### Rate limiting and retry
(`RateLimiter` and `RetrySystem`, `optimized_business_rules.py` 28-66 and
145-184).  Times are rationals in seconds.  `RetrySystem` holds no
reference to the shared `RateLimiter`; its 429 handling is a local
`time.sleep` in the failing worker, so the embedding of
`execute_with_retry` neither reads nor writes the limiter state. -/

/-- The shared, lock-protected limiter state. -/
structure RateLimiterState where
  requests_per_minute : Nat
  requests : List ℚ
  last_429_time : ℚ
  deriving Repr, DecidableEq

/-- `RateLimiter.handle_429_error`: record the time of the 429.  This
method has no caller anywhere in the repository. -/
def handle_429_error (s : RateLimiterState) (now : ℚ) : RateLimiterState :=
  { s with last_429_time := now }

/-- `RateLimiter.wait_if_needed`: returns the total sleep imposed before
the caller may issue its call, and the updated state (`now` is sampled
once at entry, as in the source). -/
def wait_if_needed (s : RateLimiterState) (now : ℚ) :
    ℚ × RateLimiterState :=
  let sleep429 : ℚ :=
    if now - s.last_429_time < 120 then
      if 120 - (now - s.last_429_time) > 0 then 120 - (now - s.last_429_time)
      else 0
    else 0
  let reqs := s.requests.filter (fun t => now - t < 60)
  let quota : ℚ × List ℚ :=
    if s.requests_per_minute ≤ reqs.length then
      match reqs.head? with
      | some r0 =>
        if 60 - (now - r0) > 0 then (60 - (now - r0), []) else (0, reqs)
      | none => (0, reqs)
    else (0, reqs)
  (sleep429 + quota.1, { s with requests := quota.2 ++ [now] })

/-- `RetrySystem` construction parameters. -/
structure RetryConfig where
  max_retries : Nat := 3
  base_delay : Nat := 1
  max_delay : Nat := 120
  deriving Repr, DecidableEq

/-- How one attempt of the wrapped function ends. -/
inductive CallOutcome where
  | success
  | http429
  | overLimit
  | otherError
  deriving Repr, DecidableEq

/-- The delay `execute_with_retry` sleeps locally after a failed
attempt: 429-class failures wait `min(60·(attempt+1), 300)`, others use
exponential backoff capped at `max_delay`. -/
def retry_delay (cfg : RetryConfig) (attempt : Nat) :
    CallOutcome → ℚ
  | .http429 => ((min (60 * (attempt + 1)) 300 : Nat) : ℚ)
  | .overLimit => ((min (60 * (attempt + 1)) 300 : Nat) : ℚ)
  | _ => ((min (cfg.base_delay * 2 ^ attempt) cfg.max_delay : Nat) : ℚ)

/-- The times at which `execute_with_retry` issues its attempts, given
the outcome of each attempt.  The shared limiter state is not an input:
the source function never consults it. -/
def execute_with_retry_times (cfg : RetryConfig)
    (outcomes : Nat → CallOutcome) : Nat → Nat → ℚ → List ℚ
  | 0, _, _ => []
  | fuel + 1, attempt, t =>
    t :: (match outcomes attempt with
      | .success => []
      | o =>
        if attempt = cfg.max_retries then []
        else execute_with_retry_times cfg outcomes fuel (attempt + 1)
          (t + retry_delay cfg attempt o))

/-- Attempt times of a full `execute_with_retry` episode starting at
`start`. -/
def execute_with_retry_call_times (cfg : RetryConfig)
    (outcomes : Nat → CallOutcome) (start : ℚ) : List ℚ :=
  execute_with_retry_times cfg outcomes (cfg.max_retries + 1) 0 start

/-- `_process_single_item_with_retry` (`optimized_business_rules.py`
414-434): acquire the shared limiter once, sleep the extra 0.5 s, then
run the item under `execute_with_retry`.  Returns the limiter state as
left by the episode and the times of the remote attempts. -/
def process_single_item_with_retry_model (cfg : RetryConfig)
    (s : RateLimiterState) (now : ℚ) (outcomes : Nat → CallOutcome) :
    RateLimiterState × List ℚ :=
  let w := wait_if_needed s now
  (w.2, execute_with_retry_call_times cfg outcomes (now + w.1 + 1/2))

/-! ## Theorems -/

/-- C4.  In both removal passes, a deal of a managed pipeline (SDR or
Negociação) whose stage is one of the four exception stages is left
untouched: no mutation call is issued, whatever its status. -/
theorem removal_exception_stage_untouched (d : Deal)
    (hp : d.pipeline_id = PIPELINE_BASE_NOVA_SDR_ID ∨
      d.pipeline_id = PIPELINE_BASE_NOVA_NEGOCIACAO_ID)
    (hs : d.stage_id ∈ etapas_excecao) :
    (apply_removal_rules d).calls = [] ∧
    (apply_removal_rules_optimized d).calls = [] := by
  rcases hp with hp | hp <;>
    simp [apply_removal_rules, apply_removal_rules_optimized, hp, hs,
      PIPELINE_BASE_NOVA_SDR_ID, PIPELINE_BASE_NOVA_NEGOCIACAO_ID,
      PIPELINE_BASE_NOVA_FORMALIZACAO_ID, PIPELINE_JUDICIAL_ID]

/-- Witness for C4 at a concrete deal in the Negociação pipeline, stage
"Agdo Pagamento", status `won`. -/
theorem removal_exception_stage_untouched_witness :
    (apply_removal_rules
        ⟨41, "00000000123 - FULANO", "won", 15, 173⟩).calls = [] ∧
    (apply_removal_rules_optimized
        ⟨41, "00000000123 - FULANO", "won", 15, 173⟩).calls = [] :=
  removal_exception_stage_untouched ⟨41, "00000000123 - FULANO", "won", 15, 173⟩
    (Or.inr rfl) (by decide)

/-- C2 counterexample.  A deal in the SDR pipeline, outside the
exception stages, with `status = lost` and a document absent from the
extract: the optimized removal pass marks it lost again and issues no
reopen (no `status := open` update), contradicting the claim that the
removal pass reopens such deals. -/
theorem removal_reopen_counterexample :
    (apply_removal_rules_optimized
        ⟨55, "00000000123 - FULANO", "lost", 14, 111⟩).calls =
      [.markDealAsLost 55 "Não consta mais no TXT do banco"] ∧
    ∀ c ∈ (apply_removal_rules_optimized
        ⟨55, "00000000123 - FULANO", "lost", 14, 111⟩).calls,
      c.isReopen = false := by
  constructor
  · decide
  · decide

/-- C2 amended.  For a managed-pipeline deal outside the exception
stages with `status = lost`, the standard removal pass reopens it —
`status := open`, same pipeline, stage "Iniciar Cobrança" — while the
optimized removal pass marks it lost again. -/
theorem removal_lost_deal_behavior (d : Deal)
    (hp : d.pipeline_id = PIPELINE_BASE_NOVA_SDR_ID ∨
      d.pipeline_id = PIPELINE_BASE_NOVA_NEGOCIACAO_ID)
    (hs : d.stage_id ∉ etapas_excecao) (hl : d.status = "lost") :
    (apply_removal_rules d).calls =
      [.updateDeal d.id (some "open") (some d.pipeline_id)
        (some STAGE_INICIAR_COBRANCA_ID)] ∧
    (apply_removal_rules_optimized d).calls =
      [.markDealAsLost d.id "Não consta mais no TXT do banco"] := by
  rcases hp with hp | hp <;>
    simp [apply_removal_rules, apply_removal_rules_optimized,
      reopen_deal_to_iniciar_cobranca, hp, hs, hl,
      PIPELINE_BASE_NOVA_SDR_ID, PIPELINE_BASE_NOVA_NEGOCIACAO_ID,
      PIPELINE_BASE_NOVA_FORMALIZACAO_ID, PIPELINE_JUDICIAL_ID,
      STAGE_INICIAR_COBRANCA_ID]

/-- Witness for C2's amended theorem at a concrete lost SDR deal. -/
theorem removal_lost_deal_behavior_witness :
    (apply_removal_rules
        ⟨56, "00000000124 - BELTRANO", "lost", 14, 111⟩).calls =
      [.updateDeal 56 (some "open") (some 14) (some 115)] ∧
    (apply_removal_rules_optimized
        ⟨56, "00000000124 - BELTRANO", "lost", 14, 111⟩).calls =
      [.markDealAsLost 56 "Não consta mais no TXT do banco"] :=
  removal_lost_deal_behavior ⟨56, "00000000124 - BELTRANO", "lost", 14, 111⟩
    (Or.inl rfl) (by decide) rfl

/-- C3.  The standard removal pass fetches deals only from the SDR and
Negociação pipelines — the Formalização pipeline id is absent from its
loop, although its own docstring announces all three BASE NOVA funnels —
so a deal sitting in the Formalização pipeline is never examined by the
standard removal pass, while the optimized fetch does cover it. -/
theorem removal_fetch_pipelines :
    base_nova_fetch_pipelines =
      [PIPELINE_BASE_NOVA_SDR_ID, PIPELINE_BASE_NOVA_NEGOCIACAO_ID] ∧
    PIPELINE_BASE_NOVA_FORMALIZACAO_ID ∉ base_nova_fetch_pipelines ∧
    base_nova_fetch_pipelines_optimized =
      [PIPELINE_BASE_NOVA_SDR_ID, PIPELINE_BASE_NOVA_NEGOCIACAO_ID,
       PIPELINE_BASE_NOVA_FORMALIZACAO_ID] ∧
    (get_all_deals_in_base_nova_pipelines
        (fun p => if p = PIPELINE_BASE_NOVA_FORMALIZACAO_ID then
          [⟨9, "00000000123 - X", "open", 17, 130⟩] else []) = [] ∧
     get_all_deals_in_base_nova_pipelines_optimized
        (fun p => if p = PIPELINE_BASE_NOVA_FORMALIZACAO_ID then
          [⟨9, "00000000123 - X", "open", 17, 130⟩] else []) =
        [⟨9, "00000000123 - X", "open", 17, 130⟩]) := by
  refine ⟨rfl, by decide, rfl, by decide, by decide⟩

/-- C8 counterexample.  A fatal error in the post-start phase (for
example the removal pass raising) is caught by the run-level handler:
the ProcessingRun row is marked `erro`, but the entry point returns the
statistics instead of propagating the exception; and when the extract
file itself is unreadable, the failure happens before the run row is
opened, so no ProcessingRun row is marked at all. -/
theorem run_error_not_propagated_counterexample :
    (process_inadimplentes_from_txt_run (.ok ()) true []
        (.error "falha na remoção")).propagates = false ∧
    (process_inadimplentes_from_txt_run (.ok ()) true []
        (.error "falha na remoção")).run_status = some "erro" ∧
    (process_inadimplentes_from_txt_run (.error "arquivo ilegível") true []
        (.ok ())).run_status = none ∧
    (process_inadimplentes_optimized_run (.ok ()) true []
        (.error "falha na remoção")).propagates = false := by
  refine ⟨rfl, rfl, rfl, rfl⟩

/-- C8 amended.  Both run-level entry points handle a fatal error by
appending its message to the returned statistics' error list and, when
the run row was already opened, marking it `erro` with the message; the
error is returned inside the statistics, never propagated; a failure
before the run row exists (unreadable extract file) marks nothing. -/
theorem run_error_handling (e : String) (errs : List String) :
    process_inadimplentes_from_txt_run (.ok ()) true errs (.error e) =
      { erros := errs ++ ["Erro no processamento geral: " ++ e]
        run_status := some "erro"
        run_error_msg := some ("Erro no processamento geral: " ++ e)
        propagates := false } ∧
    process_inadimplentes_from_txt_run (.error e) true errs (.ok ()) =
      { erros := ["Erro no processamento geral: " ++ e]
        run_status := none, run_error_msg := none, propagates := false } ∧
    process_inadimplentes_optimized_run (.ok ()) true errs (.error e) =
      { erros := errs ++ ["Erro no processamento geral: " ++ e]
        run_status := some "erro"
        run_error_msg := some ("Erro no processamento geral: " ++ e)
        propagates := false } ∧
    process_inadimplentes_optimized_run (.error e) true errs (.ok ()) =
      { erros := ["Erro no processamento geral: " ++ e]
        run_status := none, run_error_msg := none, propagates := false } := by
  refine ⟨rfl, rfl, rfl, rfl⟩

/-- Every deal classified into a bucket by the per-extract loop comes
from the input list; the JUDICIAL bucket holds exactly the related deals
of the JUDICIAL pipeline, and the two actionable buckets never hold a
JUDICIAL-pipeline deal. -/
theorem classify_deals_spec (variants : List String) (l : List Deal) :
    (∀ x ∈ (classify_deals variants l).judiciais,
      x ∈ l ∧ x.pipeline_id = PIPELINE_JUDICIAL_ID) ∧
    (∀ x ∈ (classify_deals variants l).baseNova,
      x ∈ l ∧ x.pipeline_id ≠ PIPELINE_JUDICIAL_ID) ∧
    (∀ x ∈ (classify_deals variants l).outras,
      x ∈ l ∧ x.pipeline_id ≠ PIPELINE_JUDICIAL_ID) := by
  induction l with
  | nil => simp [classify_deals]
  | cons d rest ih =>
    obtain ⟨ihj, ihb, iho⟩ := ih
    by_cases hr : is_related variants d
    · by_cases hj : d.pipeline_id = PIPELINE_JUDICIAL_ID
      · refine ⟨?_, ?_, ?_⟩ <;> intro x hx
        · simp [classify_deals, hr, hj] at hx
          rcases hx with hx | hx
          · exact ⟨by simp [hx], by rw [hx]; exact hj⟩
          · exact ⟨List.mem_cons_of_mem _ (ihj x hx).1, (ihj x hx).2⟩
        · simp [classify_deals, hr, hj] at hx
          exact ⟨List.mem_cons_of_mem _ (ihb x hx).1, (ihb x hx).2⟩
        · simp [classify_deals, hr, hj] at hx
          exact ⟨List.mem_cons_of_mem _ (iho x hx).1, (iho x hx).2⟩
      · by_cases hb : d.pipeline_id = PIPELINE_BASE_NOVA_SDR_ID ∨
            d.pipeline_id = PIPELINE_BASE_NOVA_NEGOCIACAO_ID ∨
            d.pipeline_id = PIPELINE_BASE_NOVA_FORMALIZACAO_ID
        · refine ⟨?_, ?_, ?_⟩ <;> intro x hx
          · simp [classify_deals, hr, hj, hb] at hx
            exact ⟨List.mem_cons_of_mem _ (ihj x hx).1, (ihj x hx).2⟩
          · simp [classify_deals, hr, hj, hb] at hx
            rcases hx with hx | hx
            · exact ⟨by simp [hx], by rw [hx]; exact hj⟩
            · exact ⟨List.mem_cons_of_mem _ (ihb x hx).1, (ihb x hx).2⟩
          · simp [classify_deals, hr, hj, hb] at hx
            exact ⟨List.mem_cons_of_mem _ (iho x hx).1, (iho x hx).2⟩
        · refine ⟨?_, ?_, ?_⟩ <;> intro x hx
          · simp [classify_deals, hr, hj, hb] at hx
            exact ⟨List.mem_cons_of_mem _ (ihj x hx).1, (ihj x hx).2⟩
          · simp [classify_deals, hr, hj, hb] at hx
            exact ⟨List.mem_cons_of_mem _ (ihb x hx).1, (ihb x hx).2⟩
          · simp [classify_deals, hr, hj, hb] at hx
            rcases hx with hx | hx
            · exact ⟨by simp [hx], by rw [hx]; exact hj⟩
            · exact ⟨List.mem_cons_of_mem _ (iho x hx).1, (iho x hx).2⟩
    · refine ⟨?_, ?_, ?_⟩ <;> intro x hx <;>
        simp [classify_deals, hr] at hx
      · exact ⟨List.mem_cons_of_mem _ (ihj x hx).1, (ihj x hx).2⟩
      · exact ⟨List.mem_cons_of_mem _ (ihb x hx).1, (ihb x hx).2⟩
      · exact ⟨List.mem_cons_of_mem _ (iho x hx).1, (iho x hx).2⟩

/-- When every related deal of the debtor sits in the JUDICIAL pipeline,
the actionable buckets of the classification are empty. -/
theorem classify_deals_all_judicial (variants : List String) (l : List Deal)
    (h : ∀ x ∈ l, is_related variants x = true →
      x.pipeline_id = PIPELINE_JUDICIAL_ID) :
    (classify_deals variants l).baseNova = [] ∧
    (classify_deals variants l).outras = [] := by
  induction l with
  | nil => simp [classify_deals]
  | cons d rest ih =>
    have hrest := ih (fun x hx hr => h x (List.mem_cons_of_mem _ hx) hr)
    by_cases hr : is_related variants d
    · have hj := h d (List.mem_cons_self d rest) hr
      simp [classify_deals, hr, hj, hrest.1, hrest.2]
    · simp [classify_deals, hr, hrest.1, hrest.2]

/-- C1.  Judicial invariance holds in the three cited places — both
removal passes only record a JUDICIAL-pipeline deal as preserved, and
the standard per-extract handler issues no mutation call targeting a
JUDICIAL-pipeline deal of the debtor — but it is violated by the
optimized per-extract handler, which reopens every `lost` deal of a
matched person without inspecting its pipeline: a lost JUDICIAL deal is
moved to BASE NOVA - SDR / NOVAS COBRANÇAS. -/
theorem judicial_invariance :
    (∀ d : Deal, d.pipeline_id = PIPELINE_JUDICIAL_ID →
      (apply_removal_rules d).calls = [] ∧
      (apply_removal_rules d).stat = "negocios_judiciais_preservados" ∧
      (apply_removal_rules_optimized d).calls = [] ∧
      (apply_removal_rules_optimized d).stat =
        "negocios_judiciais_preservados") ∧
    (∀ (variants : List String) (negocios : List Deal)
        (entityId newDealId : Nat) (d : Deal),
      d ∈ negocios → d.pipeline_id = PIPELINE_JUDICIAL_ID →
      (negocios.map Deal.id).Nodup → newDealId ∉ negocios.map Deal.id →
      ∀ c ∈ handle_existing_person_from_txt variants negocios entityId
        newDealId, c.dealTarget ≠ some d.id) ∧
    handle_existing_person_optimized
        [⟨77, "00000000123 - FULANO", "lost", 3, 50⟩] =
      [.updateDeal 77 (some "open") (some 14) (some 110)] := by
  refine ⟨?_, ?_, by decide⟩
  · intro d hd
    simp [apply_removal_rules, apply_removal_rules_optimized, hd]
  · intro variants negocios entityId newDealId d hdmem hdjud hids hnew c hc
    obtain ⟨-, hbase, houtras⟩ := classify_deals_spec variants negocios
    have hne : ∀ x ∈ negocios, x.pipeline_id ≠ PIPELINE_JUDICIAL_ID →
        x.id ≠ d.id := by
      intro x hx hxp hxe
      exact hxp ((List.inj_on_of_nodup_map hids hx hdmem hxe) ▸ hdjud)
    simp only [handle_existing_person_from_txt, List.mem_append,
      List.mem_cons, List.mem_singleton, List.mem_map] at hc
    rcases hc with ((hc | ⟨x, hx, rfl⟩) | ⟨x, hx, rfl⟩) | hc
    · simp at hc
      simp [hc, ApiCall.dealTarget]
    · obtain ⟨hxmem, hxp⟩ := houtras x hx
      simp [move_deal_to_base_nova_sdr_call, ApiCall.dealTarget]
      exact hne x hxmem hxp
    · obtain ⟨hxmem, hxp⟩ := hbase x hx
      simp [apply_rules_to_base_nova_deal_call, ApiCall.dealTarget]
      exact hne x hxmem hxp
    · by_cases hempty : (classify_deals variants negocios).baseNova.isEmpty &&
          (classify_deals variants negocios).outras.isEmpty
      · simp [hempty] at hc
        rcases hc with hc | hc
        · simp [hc, ApiCall.dealTarget]
        · simp [hc, ApiCall.dealTarget]
          intro hEq
          exact hnew (hEq ▸ List.mem_map_of_mem Deal.id hdmem)
      · simp [hempty] at hc

/-- Witness for C1: a debtor with one JUDICIAL deal and one SDR deal;
no call of the standard handler targets the JUDICIAL deal, both removal
passes leave it untouched. -/
theorem judicial_invariance_witness :
    (apply_removal_rules ⟨70, "00000000123 - FULANO", "open", 3, 50⟩).calls
        = [] ∧
    (∀ c ∈ handle_existing_person_from_txt ["00000000123"]
        [⟨70, "00000000123 - FULANO", "open", 3, 50⟩,
         ⟨71, "00000000123 - FULANO", "open", 14, 110⟩] 5 99,
      c.dealTarget ≠ some 70) := by
  constructor
  · exact (judicial_invariance.1 ⟨70, "00000000123 - FULANO", "open", 3, 50⟩
      rfl).1
  · intro c hc
    exact judicial_invariance.2.1 ["00000000123"]
      [⟨70, "00000000123 - FULANO", "open", 3, 50⟩,
       ⟨71, "00000000123 - FULANO", "open", 14, 110⟩] 5 99
      ⟨70, "00000000123 - FULANO", "open", 3, 50⟩
      (by decide) rfl (by decide) (by decide) c hc

/-- C10.  For a debtor whose person exists remotely and whose related
deals all sit in the JUDICIAL pipeline (so both the BASE NOVA and the
other-pipelines buckets are empty), the standard per-extract handler
still creates a brand-new deal in BASE NOVA - SDR at the NOVAS
COBRANÇAS stage (and then fills its custom fields): JUDICIAL deals do
not suppress deal creation. -/
theorem judicial_only_still_creates_deal (variants : List String)
    (negocios : List Deal) (entityId newDealId : Nat)
    (h : ∀ x ∈ negocios, is_related variants x = true →
      x.pipeline_id = PIPELINE_JUDICIAL_ID) :
    handle_existing_person_from_txt variants negocios entityId newDealId =
      [.updatePerson entityId,
       .createDeal PIPELINE_BASE_NOVA_SDR_ID STAGE_NOVAS_COBRANCAS_ID
         entityId,
       .updateDeal newDealId none none none] := by
  obtain ⟨hb, ho⟩ := classify_deals_all_judicial variants negocios h
  simp [handle_existing_person_from_txt, hb, ho]

/-- Witness for C10 at a concrete debtor whose single related deal is
JUDICIAL. -/
theorem judicial_only_still_creates_deal_witness :
    handle_existing_person_from_txt ["00000000123"]
      [⟨77, "00000000123 - FULANO", "open", 3, 50⟩] 5 99 =
      [.updatePerson 5, .createDeal 14 110 5,
       .updateDeal 99 none none none] :=
  judicial_only_still_creates_deal ["00000000123"]
    [⟨77, "00000000123 - FULANO", "open", 3, 50⟩] 5 99 (by decide)

/-- C7.  The formatter maps `None` and the empty string to omission for
every field name; but for the delay-tag field TAG_ATRASO the numeric
zero, although exempted from the generic zero-to-omission guard, still
falls through every branch of the TAG_ATRASO block and is formatted as
omitted — contradicting the comment in the guard ("não retornar None se
valor for 0") and the spec. -/
theorem format_none_empty_and_tag_atraso_zero :
    (∀ field_name : String,
      format_custom_field_value field_name .none = .omitted ∧
      format_custom_field_value field_name (.str "") = .omitted) ∧
    format_custom_field_value "TAG_ATRASO" (.int 0) = .omitted := by
  refine ⟨?_, by decide⟩
  intro f
  by_cases hf : f = "TAG_ATRASO" <;>
    simp [format_custom_field_value, hf]

/-- C9.  A worker that observes a 429 at its first attempt (t = 1000.5)
retries after the purely local 60 s backoff of `execute_with_retry`
(issuing a remote call at t = 1060.5, inside the claimed 120 s window);
the episode leaves the shared `last_429_time` at its initial 0 — no code
path calls `handle_429_error` — so `wait_if_needed` imposes no cooldown
on another worker at t = 1070. -/
theorem rate_limit_cooldown_not_propagated :
    (process_single_item_with_retry_model ⟨3, 1, 120⟩ ⟨100, [], 0⟩ 1000
        (fun n => if n = 0 then .http429 else .success)).2 =
      [2001/2, 2121/2] ∧
    ((2121 : ℚ)/2) < 2001/2 + 120 ∧
    (process_single_item_with_retry_model ⟨3, 1, 120⟩ ⟨100, [], 0⟩ 1000
        (fun n => if n = 0 then .http429 else .success)).1.last_429_time
      = 0 ∧
    (wait_if_needed
        (process_single_item_with_retry_model ⟨3, 1, 120⟩ ⟨100, [], 0⟩ 1000
          (fun n => if n = 0 then .http429 else .success)).1 1070).1 = 0 := by
  refine ⟨?_, by norm_num, ?_, ?_⟩ <;>
    norm_num [process_single_item_with_retry_model, wait_if_needed,
      execute_with_retry_call_times, execute_with_retry_times, retry_delay]

/-! Supporting lemmas about the string primitives. -/

theorem toList_mk (l : List Char) : (String.mk l).toList = l := rfl

theorem mk_toList (s : String) : String.mk s.toList = s := by
  cases s
  rfl

theorem length_mk (l : List Char) : (String.mk l).length = l.length := rfl

theorem toList_length (s : String) : s.toList.length = s.length := rfl

theorem toList_mk_append (l : List Char) (s : String) :
    ((String.mk l) ++ s).toList = l ++ s.toList := rfl

theorem clean_document_of_digits (s : String)
    (h : s.toList.all Char.isDigit = true) : clean_document s = s := by
  have hf : s.toList.filter Char.isDigit = s.toList :=
    List.filter_eq_self.mpr (List.all_eq_true.mp h)
  show String.mk (s.toList.filter Char.isDigit) = s
  rw [hf, mk_toList]

theorem takeLast_length (n : Nat) (s : String) (h : n ≤ s.length) :
    (takeLast n s).length = n := by
  show (s.toList.drop (s.length - n)).length = n
  rw [List.length_drop, toList_length]
  omega

theorem takeLast_all (s : String) : takeLast s.length s = s := by
  show String.mk (s.toList.drop (s.length - s.length)) = s
  rw [Nat.sub_self, List.drop_zero, mk_toList]

theorem zfill_length (n : Nat) (s : String) :
    (zfill n s).length = max n s.length := by
  unfold zfill
  split
  · omega
  · show ((String.mk (List.replicate (n - s.length) '0')) ++ s).length = _
    have : ((String.mk (List.replicate (n - s.length) '0')) ++ s).length =
        (List.replicate (n - s.length) '0' ++ s.toList).length := rfl
    rw [this, List.length_append, List.length_replicate, toList_length]
    omega

theorem takeLast_digits (n : Nat) (s : String)
    (h : s.toList.all Char.isDigit = true) :
    (takeLast n s).toList.all Char.isDigit = true := by
  rw [List.all_eq_true]
  intro c hc
  exact List.all_eq_true.mp h c (List.drop_subset _ _ hc)

theorem zfill_digits (n : Nat) (s : String)
    (h : s.toList.all Char.isDigit = true) :
    (zfill n s).toList.all Char.isDigit = true := by
  unfold zfill
  split
  · exact h
  · rw [toList_mk_append, List.all_append, Bool.and_eq_true]
    refine ⟨?_, h⟩
    rw [List.all_eq_true]
    intro c hc
    rw [List.eq_of_mem_replicate hc]
    rfl

theorem ne_empty_of_length_pos (s : String) (h : 0 < s.length) : s ≠ "" := by
  intro he
  rw [he] at h
  exact Nat.lt_irrefl 0 h

/-- Unfolding of the file-processor normalizer for a nonempty digit
string and a known person type. -/
theorem normalize_document_eq (raw : String)
    (hd : raw.toList.all Char.isDigit = true) (hne : raw ≠ "") :
    normalize_document_by_type raw "PF" =
      (if 11 ≤ raw.length then takeLast 11 raw else zfill 11 raw) ∧
    normalize_document_by_type raw "PJ" =
      (if 14 ≤ raw.length then takeLast 14 raw else zfill 14 raw) := by
  have hclean := clean_document_of_digits raw hd
  constructor <;> simp [normalize_document_by_type, hclean, hne]

/-- The canonical form produced for a nonempty digit string: length and
digit-only content. -/
theorem normalize_document_length_digits (raw : String)
    (hd : raw.toList.all Char.isDigit = true) (hne : raw ≠ "") :
    ((normalize_document_by_type raw "PF").length = 11 ∧
     (normalize_document_by_type raw "PF").toList.all Char.isDigit = true) ∧
    ((normalize_document_by_type raw "PJ").length = 14 ∧
     (normalize_document_by_type raw "PJ").toList.all Char.isDigit = true)
    := by
  obtain ⟨h1, h2⟩ := normalize_document_eq raw hd hne
  constructor
  · rw [h1]
    by_cases hl : 11 ≤ raw.length
    · rw [if_pos hl]
      exact ⟨takeLast_length 11 raw hl, takeLast_digits 11 raw hd⟩
    · rw [if_neg hl]
      refine ⟨?_, zfill_digits 11 raw hd⟩
      rw [zfill_length]
      omega
  · rw [h2]
    by_cases hl : 14 ≤ raw.length
    · rw [if_pos hl]
      exact ⟨takeLast_length 14 raw hl, takeLast_digits 14 raw hd⟩
    · rw [if_neg hl]
      refine ⟨?_, zfill_digits 14 raw hd⟩
      rw [zfill_length]
      omega

theorem dedup_foldl_head (l acc : List String) (hacc : acc ≠ []) :
    (l.foldl
      (fun acc v => if v ≠ "" ∧ v ∉ acc then acc ++ [v] else acc)
      acc).head? = acc.head? := by
  induction l generalizing acc with
  | nil => simp
  | cons x xs ih =>
    rw [List.foldl_cons]
    by_cases hx : x ≠ "" ∧ x ∉ acc
    · rw [if_pos hx, ih (acc ++ [x]) (by simp)]
      cases acc with
      | nil => exact absurd rfl hacc
      | cons a as => simp
    · rw [if_neg hx]
      exact ih acc hacc

theorem dedup_variants_head (v : String) (rest : List String) (hv : v ≠ "") :
    (dedup_variants (v :: rest)).head? = some v := by
  unfold dedup_variants
  rw [List.foldl_cons, if_pos ⟨hv, by simp⟩, List.nil_append,
    dedup_foldl_head rest [v] (by simp)]
  rfl

/-- The first variant produced by the Pipedrive-client normalizer equals
the scalar normalizer's output. -/
theorem client_variants_head_eq (clean : String) (target : Nat) :
    ∃ rest, client_variants_for_target clean target =
      (if target ≤ clean.length then takeLast target clean
       else zfill target clean) :: rest := by
  by_cases hl : target ≤ clean.length
  · rw [if_pos hl]
    unfold client_variants_for_target
    rw [if_pos (show clean.length ≥ target from hl)]
    exact ⟨_, rfl⟩
  · rw [if_neg hl]
    unfold client_variants_for_target
    rw [if_neg (show ¬ clean.length ≥ target from hl)]
    exact ⟨_, rfl⟩

/-- C6 counterexample.  On the empty digit string the normalizer's
empty-input guard returns the empty string before any padding happens,
so the output does not have canonical length. -/
theorem normalize_empty_counterexample :
    normalize_document_by_type "" "PF" = "" ∧
    (normalize_document_by_type "" "PF").length ≠ 11 ∧
    normalize_document_by_type "" "PJ" = "" ∧
    (normalize_document_by_type "" "PJ").length ≠ 14 := by
  decide

/-- C6 amended.  For every nonempty digit string, normalization yields
canonical length (11 for PF, 14 for PJ) by keeping the last N digits
when longer and left-zero-padding when shorter, it is idempotent, and
the first variant of the Pipedrive-client normalizer agrees with it. -/
theorem normalize_document_canonical_idempotent (raw : String)
    (hd : raw.toList.all Char.isDigit = true) (hne : raw ≠ "") :
    (normalize_document_by_type raw "PF").length = 11 ∧
    (normalize_document_by_type raw "PJ").length = 14 ∧
    (11 ≤ raw.length →
      normalize_document_by_type raw "PF" = takeLast 11 raw) ∧
    (raw.length < 11 →
      normalize_document_by_type raw "PF" = zfill 11 raw) ∧
    (14 ≤ raw.length →
      normalize_document_by_type raw "PJ" = takeLast 14 raw) ∧
    (raw.length < 14 →
      normalize_document_by_type raw "PJ" = zfill 14 raw) ∧
    normalize_document_by_type (normalize_document_by_type raw "PF") "PF" =
      normalize_document_by_type raw "PF" ∧
    normalize_document_by_type (normalize_document_by_type raw "PJ") "PJ" =
      normalize_document_by_type raw "PJ" ∧
    (client_normalize_document_by_type raw "PF").head? =
      some (normalize_document_by_type raw "PF") ∧
    (client_normalize_document_by_type raw "PJ").head? =
      some (normalize_document_by_type raw "PJ") := by
  obtain ⟨⟨hlenPF, hdigPF⟩, hlenPJ, hdigPJ⟩ :=
    normalize_document_length_digits raw hd hne
  obtain ⟨heqPF, heqPJ⟩ := normalize_document_eq raw hd hne
  have hclean := clean_document_of_digits raw hd
  have hrnePF : normalize_document_by_type raw "PF" ≠ "" :=
    ne_empty_of_length_pos _ (by rw [hlenPF]; omega)
  have hrnePJ : normalize_document_by_type raw "PJ" ≠ "" :=
    ne_empty_of_length_pos _ (by rw [hlenPJ]; omega)
  refine ⟨hlenPF, hlenPJ, ?_, ?_, ?_, ?_, ?_, ?_, ?_, ?_⟩
  · intro h
    rw [heqPF, if_pos h]
  · intro h
    rw [heqPF, if_neg (by omega)]
  · intro h
    rw [heqPJ, if_pos h]
  · intro h
    rw [heqPJ, if_neg (by omega)]
  · obtain ⟨h1, -⟩ :=
      normalize_document_eq (normalize_document_by_type raw "PF")
        hdigPF hrnePF
    rw [h1, if_pos (by rw [hlenPF]), ← hlenPF, takeLast_all]
  · obtain ⟨-, h2⟩ :=
      normalize_document_eq (normalize_document_by_type raw "PJ")
        hdigPJ hrnePJ
    rw [h2, if_pos (by rw [hlenPJ]), ← hlenPJ, takeLast_all]
  · have hcl : client_normalize_document_by_type raw "PF" =
        dedup_variants (client_variants_for_target raw 11) := by
      simp [client_normalize_document_by_type, hclean, hne]
    obtain ⟨rest, hcv⟩ := client_variants_head_eq raw 11
    rw [hcl, hcv, ← heqPF, dedup_variants_head _ _ hrnePF]
  · have hcl : client_normalize_document_by_type raw "PJ" =
        dedup_variants (client_variants_for_target raw 14) := by
      simp [client_normalize_document_by_type, hclean, hne]
    obtain ⟨rest, hcv⟩ := client_variants_head_eq raw 14
    rw [hcl, hcv, ← heqPJ, dedup_variants_head _ _ hrnePJ]

/-- Witness for C6's amended theorem at the spec's own 18-digit example
value. -/
theorem normalize_document_canonical_idempotent_witness :
    (normalize_document_by_type "000012345678900015" "PF").length = 11 ∧
    (normalize_document_by_type "000012345678900015" "PJ").length = 14 ∧
    (11 ≤ ("000012345678900015" : String).length →
      normalize_document_by_type "000012345678900015" "PF" =
        takeLast 11 "000012345678900015") ∧
    (("000012345678900015" : String).length < 11 →
      normalize_document_by_type "000012345678900015" "PF" =
        zfill 11 "000012345678900015") ∧
    (14 ≤ ("000012345678900015" : String).length →
      normalize_document_by_type "000012345678900015" "PJ" =
        takeLast 14 "000012345678900015") ∧
    (("000012345678900015" : String).length < 14 →
      normalize_document_by_type "000012345678900015" "PJ" =
        zfill 14 "000012345678900015") ∧
    normalize_document_by_type
        (normalize_document_by_type "000012345678900015" "PF") "PF" =
      normalize_document_by_type "000012345678900015" "PF" ∧
    normalize_document_by_type
        (normalize_document_by_type "000012345678900015" "PJ") "PJ" =
      normalize_document_by_type "000012345678900015" "PJ" ∧
    (client_normalize_document_by_type "000012345678900015" "PF").head? =
      some (normalize_document_by_type "000012345678900015" "PF") ∧
    (client_normalize_document_by_type "000012345678900015" "PJ").head? =
      some (normalize_document_by_type "000012345678900015" "PJ") :=
  normalize_document_canonical_idempotent "000012345678900015"
    (by decide) (by decide)

/-- C5.  One successful save to the backup ledger: it returns `true`;
it appends exactly one row to the history table, leaving the existing
history rows untouched; it preserves the one-row-per-(documento,
tipo_pessoa) invariant; and it either updates the matched row in place
with `version` incremented by exactly 1 (row count unchanged) or, on
first sight of the pair, inserts a single row with `version = 1`. -/
theorem backup_ledger_upsert (st : LedgerState) (inad : Inadimplente)
    (person_id org_id deal_id : Option Nat) (status_op : String)
    (pa sa oa : Option String)
    (hdoc : inad.cpf_cnpj ≠ "") (htipo : inad.tipo_pessoa ≠ "")
    (hnome : inad.nome ≠ "")
    (hkeys : (st.entidades.map ledger_key).Nodup)
    (hids : (st.entidades.map EntityRow.id).Nodup) :
    (salvar_entidade_devedor st inad person_id org_id deal_id status_op
      pa sa oa).1 = true ∧
    (∃ h : HistoryRow,
      (salvar_entidade_devedor st inad person_id org_id deal_id status_op
        pa sa oa).2.historico = st.historico ++ [h]) ∧
    ((salvar_entidade_devedor st inad person_id org_id deal_id status_op
      pa sa oa).2.entidades.map ledger_key).Nodup ∧
    (match st.entidades.find? (entity_matches inad) with
     | some row =>
        (salvar_entidade_devedor st inad person_id org_id deal_id status_op
          pa sa oa).2.entidades.length = st.entidades.length ∧
        ∃ r ∈ (salvar_entidade_devedor st inad person_id org_id deal_id
          status_op pa sa oa).2.entidades, r.id = row.id ∧
          r.version = row.version + 1 ∧ ledger_key r = ledger_key row
     | none =>
        (salvar_entidade_devedor st inad person_id org_id deal_id status_op
          pa sa oa).2.entidades.length = st.entidades.length + 1 ∧
        ∃ r ∈ (salvar_entidade_devedor st inad person_id org_id deal_id
          status_op pa sa oa).2.entidades,
          ledger_key r = (inad.cpf_cnpj, inad.tipo_pessoa) ∧
          r.version = 1) := by
  have hguard : ¬(inad.cpf_cnpj = "" ∨ inad.tipo_pessoa = "" ∨
      inad.nome = "") := by
    simp [hdoc, htipo, hnome]
  cases hfind : st.entidades.find? (entity_matches inad) with
  | some row =>
    have hrow : row ∈ st.entidades := List.mem_of_find?_eq_some hfind
    have hsal :
        salvar_entidade_devedor st inad person_id org_id deal_id status_op
          pa sa oa =
        (true,
         { st with
           entidades := st.entidades.map (fun r =>
             if r.id = row.id then
               { row with
                 nome := inad.nome
                 pipedrive_person_id := person_id
                 pipedrive_org_id := org_id
                 pipedrive_deal_id := deal_id
                 dados := inad
                 version := row.version + 1
                 status_operacao := status_op
                 pipeline_atual := pa
                 stage_atual := sa }
             else r)
           historico := st.historico ++
             [{ entidade_id := row.id
                documento := inad.cpf_cnpj
                tipo_pessoa := inad.tipo_pessoa
                acao := "atualizado"
                dados_anteriores := some row
                dados_novos := inad
                origem_arquivo := oa }] }) := by
      unfold salvar_entidade_devedor
      rw [if_neg hguard, hfind]
    rw [hsal]
    have hmapkeys : (st.entidades.map (fun r =>
        if r.id = row.id then
          { row with
            nome := inad.nome
            pipedrive_person_id := person_id
            pipedrive_org_id := org_id
            pipedrive_deal_id := deal_id
            dados := inad
            version := row.version + 1
            status_operacao := status_op
            pipeline_atual := pa
            stage_atual := sa }
        else r)).map ledger_key = st.entidades.map ledger_key := by
      rw [List.map_map]
      refine List.map_congr_left ?_
      intro r hr
      by_cases hid : r.id = row.id
      · have hreq : r = row := List.inj_on_of_nodup_map hids hr hrow hid
        simp [Function.comp, hid, ledger_key, hreq]
      · simp [Function.comp, hid]
    refine ⟨rfl, ⟨_, rfl⟩, ?_, ?_, ?_⟩
    · rw [hmapkeys]
      exact hkeys
    · exact List.length_map _ _
    · refine ⟨_, List.mem_map_of_mem _ hrow, ?_⟩
      rw [if_pos rfl]
      exact ⟨rfl, rfl, rfl⟩
  | none =>
    have hnot : ∀ r ∈ st.entidades, ¬(entity_matches inad r = true) :=
      fun r hr => List.find?_eq_none.mp hfind r hr
    have hsal :
        salvar_entidade_devedor st inad person_id org_id deal_id status_op
          pa sa oa =
        (true,
         { entidades := st.entidades ++
             [{ id := st.nextId
                documento := inad.cpf_cnpj
                tipo_pessoa := inad.tipo_pessoa
                nome := inad.nome
                pipedrive_person_id := person_id
                pipedrive_org_id := org_id
                pipedrive_deal_id := deal_id
                dados := inad
                version := 1
                status_operacao := status_op
                pipeline_atual := pa
                stage_atual := sa }]
           historico := st.historico ++
             [{ entidade_id := st.nextId
                documento := inad.cpf_cnpj
                tipo_pessoa := inad.tipo_pessoa
                acao := "criado"
                dados_anteriores := none
                dados_novos := inad
                origem_arquivo := oa }]
           nextId := st.nextId + 1 }) := by
      unfold salvar_entidade_devedor
      rw [if_neg hguard, hfind]
    rw [hsal]
    refine ⟨rfl, ⟨_, rfl⟩, ?_, ?_, ?_⟩
    · rw [List.map_append]
      refine List.Nodup.append hkeys (by simp) ?_
      intro k hk hknew
      simp only [List.map_cons, List.map_nil, List.mem_singleton] at hknew
      obtain ⟨r, hr, hkr⟩ := List.mem_map.mp hk
      apply hnot r hr
      have : r.documento = inad.cpf_cnpj ∧ r.tipo_pessoa = inad.tipo_pessoa
          := by
        have := hkr.trans hknew
        simp [ledger_key, Prod.ext_iff] at this
        exact this
      simp [entity_matches, this.1, this.2]
    · simp
    · refine ⟨{ id := st.nextId
                documento := inad.cpf_cnpj
                tipo_pessoa := inad.tipo_pessoa
                nome := inad.nome
                pipedrive_person_id := person_id
                pipedrive_org_id := org_id
                pipedrive_deal_id := deal_id
                dados := inad
                version := 1
                status_operacao := status_op
                pipeline_atual := pa
                stage_atual := sa }, by simp, rfl, rfl⟩

/-- A concrete debtor record for witnesses. -/
def inad_exemplo : Inadimplente :=
  { cpf_cnpj := "00000000123"
    tipo_pessoa := "PF"
    nome := "FULANO"
    valor_total_divida := 1000
    valor_total_vencido := 500
    valor_total_com_juros := 1100
    dias_atraso_maximo := 95
    cooperado := ""
    cooperativa := "OURO VERDE"
    numero_contrato := "7"
    todos_contratos := "7"
    todas_operacoes := "9"
    vencimento_mais_antigo := "01/02/2024"
    tipo_acao_carteira := ""
    total_parcelas := "12"
    tag_atraso := ""
    contrato_garantinorte := ""
    telefones := []
    emails := []
    endereco_completo := ""
    data_nascimento := ""
    rg := ""
    nome_mae := ""
    estado_civil := ""
    condicao_cpf := "" }

/-- Witness for C5: saving `inad_exemplo` into an empty ledger. -/
theorem backup_ledger_upsert_witness :
    (salvar_entidade_devedor ⟨[], [], 1⟩ inad_exemplo none none none
      "criado" none none none).1 = true ∧
    (∃ h : HistoryRow,
      (salvar_entidade_devedor ⟨[], [], 1⟩ inad_exemplo none none none
        "criado" none none none).2.historico = [] ++ [h]) ∧
    (((salvar_entidade_devedor ⟨[], [], 1⟩ inad_exemplo none none none
      "criado" none none none).2.entidades.map ledger_key).Nodup) ∧
    (match ([] : List EntityRow).find? (entity_matches inad_exemplo) with
     | some row =>
        (salvar_entidade_devedor ⟨[], [], 1⟩ inad_exemplo none none none
          "criado" none none none).2.entidades.length =
          ([] : List EntityRow).length ∧
        ∃ r ∈ (salvar_entidade_devedor ⟨[], [], 1⟩ inad_exemplo none none
          none "criado" none none none).2.entidades, r.id = row.id ∧
          r.version = row.version + 1 ∧ ledger_key r = ledger_key row
     | none =>
        (salvar_entidade_devedor ⟨[], [], 1⟩ inad_exemplo none none none
          "criado" none none none).2.entidades.length =
          ([] : List EntityRow).length + 1 ∧
        ∃ r ∈ (salvar_entidade_devedor ⟨[], [], 1⟩ inad_exemplo none none
          none "criado" none none none).2.entidades,
          ledger_key r = (inad_exemplo.cpf_cnpj, inad_exemplo.tipo_pessoa) ∧
          r.version = 1) :=
  backup_ledger_upsert ⟨[], [], 1⟩ inad_exemplo none none none "criado"
    none none none (by decide) (by decide) (by decide)
    (by simp) (by simp)

end PipedriveCrud
